import Mathlib

/-!
Verification of the query-extraction and execution pipeline of the
Haamid_MedBot repository (`survey_analyzer.py`).

Python strings are modelled as `List Char` (`PyStr`); the relevant Python
string and `re` operations (`str.strip`, `str.replace` with its
left-to-right non-overlapping scan, `re.sub` anchored at the start of the
string, `re.search` returning the leftmost match) are embedded as
executable Lean functions, and the five fallible external calls of
`query_analyzer` (database connection, model initialization, SQL
generation, SQL execution, summarization) are modelled as `Except`-valued
oracles collected in an `Env`.
-/

namespace MedBot

/-- Python `str` modelled as a list of characters. -/
abbrev PyStr := List Char

/-- A result table (`pandas.DataFrame`) modelled as rows of cell strings. -/
abbrev Table := List (List PyStr)

/-- The backtick character. -/
def tick : Char := Char.ofNat 96

/-- The ASCII whitespace characters matched by Python `\s` and stripped by
`str.strip`: space, tab, newline, carriage return, vertical tab, form feed. -/
def isSpaceChar (c : Char) : Bool :=
  c == ' ' || c == Char.ofNat 9 || c == Char.ofNat 10 ||
  c == Char.ofNat 13 || c == Char.ofNat 11 || c == Char.ofNat 12

/-- ASCII lower-casing, as used by case-insensitive regex matching. -/
def lowerChar (c : Char) : Char := c.toLower

/-- Python `str.lstrip`. -/
def lstrip (s : PyStr) : PyStr := s.dropWhile isSpaceChar

/-- Python `str.rstrip`. -/
def rstrip (s : PyStr) : PyStr := s.rdropWhile isSpaceChar

/-- Python `str.strip`. -/
def pyStrip (s : PyStr) : PyStr := rstrip (lstrip s)

/-- The label `Question:` in lower case (the regex is case-insensitive). -/
def qLabel : PyStr := ['q', 'u', 'e', 's', 't', 'i', 'o', 'n', ':']

/-- The label `SQLQuery:` in lower case (the regex is case-insensitive). -/
def sLabel : PyStr := ['s', 'q', 'l', 'q', 'u', 'e', 'r', 'y', ':']

/-- `re.sub(r"^(Question:|SQLQuery:)\s*", "", sql, flags=re.IGNORECASE)`:
without `re.MULTILINE` the anchor `^` only matches at position 0, so at most
one leading label (with the greedy run of whitespace after it) is removed. -/
def removeLabel (s : PyStr) : PyStr :=
  if qLabel <+: s.map lowerChar then (s.drop 9).dropWhile isSpaceChar
  else if sLabel <+: s.map lowerChar then (s.drop 9).dropWhile isSpaceChar
  else s

/-- Step 1 of `clean_sql` (line 91 of `survey_analyzer.py`):
label removal followed by `.strip()`. -/
def step1 (s : PyStr) : PyStr := pyStrip (removeLabel s)

/-- Python `str.replace(pat, "")` for a three-character pattern `[a, b, d]`:
the string is scanned left to right and non-overlapping occurrences are
deleted, the scan resuming after each deleted occurrence. -/
def scrub (a b d : Char) : PyStr → PyStr
  | [] => []
  | [x] => [x]
  | [x, y] => [x, y]
  | x :: y :: z :: rest =>
    if x = a ∧ y = b ∧ z = d then scrub a b d rest
    else x :: scrub a b d (y :: z :: rest)

/-- `.replace("```", "")`. -/
def stripFences (s : PyStr) : PyStr := scrub tick tick tick s

/-- `.replace("sql", "")` — case-sensitive, substring-based. -/
def stripSqlWord (s : PyStr) : PyStr := scrub 's' 'q' 'l' s

/-- Step 2 of `clean_sql` (line 92 of `survey_analyzer.py`):
`sql.replace("```", "").replace("sql", "").strip()`. -/
def step2 (s : PyStr) : PyStr := pyStrip (stripSqlWord (stripFences s))

/-- The text after steps 1 and 2 of `clean_sql`, i.e. the string on which the
`SELECT` search of line 93 is performed. -/
def preClean (s : PyStr) : PyStr := step2 (step1 s)

/-- The token `select` in lower case. -/
def selectTok : PyStr := ['s', 'e', 'l', 'e', 'c', 't']

/-- After a `SELECT` at position `i`, the regex `SELECT\s.+` additionally
requires one whitespace character and at least one further character
(`re.DOTALL` makes `.` match newlines, so any character qualifies). -/
def wsThenChar (c : PyStr) (i : Nat) : Bool :=
  match c.drop (i + 6) with
  | w :: _ :: _ => isSpaceChar w
  | _ => false

/-- The regex `(SELECT\s.+)` with `re.IGNORECASE | re.DOTALL` matches at
position `i` of `c`. -/
def selectMatchAt (c : PyStr) (i : Nat) : Prop :=
  (selectTok <+: (c.drop i).map lowerChar) ∧ wsThenChar c i = true

instance (c : PyStr) (i : Nat) : Decidable (selectMatchAt c i) := by
  unfold selectMatchAt; infer_instance

/-- Scan positions `i, i+1, ...` (at most `fuel` of them) for the leftmost
regex match, as `re.search` does. -/
def findSelGo (c : PyStr) : Nat → Nat → Option Nat
  | i, fuel + 1 => if selectMatchAt c i then some i else findSelGo c (i + 1) fuel
  | _, 0 => none

/-- The position of the leftmost match of `(SELECT\s.+)` in `c`, if any
(`re.search(r"(SELECT\s.+)", sql, re.IGNORECASE | re.DOTALL)`).
A match needs at least 8 characters from its start, so scanning
`c.length` start positions is exhaustive. -/
def findSel (c : PyStr) : Option Nat := findSelGo c 0 c.length

/-- `clean_sql` (lines 87–96 of `survey_analyzer.py`): steps 1 and 2, then
the `SELECT` search; on a match the match (which extends to the end of the
string, `.+` being greedy under `re.DOTALL`) is returned stripped, otherwise
the step-1/step-2 cleaned text is returned. -/
def clean_sql (s : PyStr) : PyStr :=
  let c := preClean s
  match findSel c with
  | some i => pyStrip (c.drop i)
  | none => c

/-- The five fallible external calls made by `query_analyzer`, plus the
rendering of a result table to text (`DataFrame.to_string()`). -/
structure Env where
  connectDb : Except PyStr Unit
  initLLM : Except PyStr Unit
  generateSQL : PyStr → Except PyStr PyStr
  execSQL : PyStr → Except PyStr Table
  renderTable : Table → PyStr
  summarize : PyStr → Except PyStr PyStr

/-- Error string of the database-connection failure branch (line 29). -/
def errConnect (e : PyStr) : PyStr := "Error connecting to database: ".toList ++ e

/-- Error string of the LLM-initialization failure branch (line 42). -/
def errInitLLM (e : PyStr) : PyStr :=
  "Error initializing LLM. Please check your API key. Details: ".toList ++ e

/-- Error string of the SQL-generation failure branch (line 109). -/
def errGenerate (e : PyStr) : PyStr := "Error during SQL generation: ".toList ++ e

/-- Error string of the SQL-execution failure branch (line 122). -/
def errExecute (e sq : PyStr) : PyStr :=
  "SQL Execution Error: ".toList ++ e ++ "\nAttempted Query: ".toList ++ sq

/-- Error string of the summarization failure branch (line 148). -/
def errSummarize (e : PyStr) : PyStr := "Error during summarization: ".toList ++ e

/-- The summarization prompt of lines 127–139, with `question` and `data`
substituted by `PromptTemplate.format`. -/
def summaryPrompt (q data : PyStr) : PyStr :=
  "\nYou are a medical data assistant.\nThe doctor asked: ".toList ++ q ++
  "\nHere are the retrieved results:\n".toList ++ data ++
  "\n\nSummarize and explain the trends in natural language. Answer the question subtly.\nKeep your answers concise but do not miss important details.\nDo not give medical advice, only describe the data.\n".toList

/-- `query_analyzer` (lines 9–150 of `survey_analyzer.py`), as a function of
the question and of the outcomes of the five external calls.  Each stage
catches its own failure and returns a tuple whose first slot is a
human-readable message; the second and third slots hold the sanitized SQL
and the result table when they have been computed. -/
def query_analyzer (q : PyStr) (env : Env) : PyStr × Option PyStr × Option Table :=
  match env.connectDb with
  | .error e => (errConnect e, none, none)
  | .ok _ =>
    match env.initLLM with
    | .error e => (errInitLLM e, none, none)
    | .ok _ =>
      match env.generateSQL q with
      | .error e => (errGenerate e, none, none)
      | .ok raw =>
        let sq := clean_sql raw
        match env.execSQL sq with
        | .error e => (errExecute e sq, some sq, none)
        | .ok df =>
          match env.summarize (summaryPrompt q (env.renderTable df)) with
          | .error e => (errSummarize e, some sq, some df)
          | .ok ans => (ans, some sq, some df)

/-- The stages of the pipeline that can fail. -/
inductive Stage where
  | connect
  | initLLM
  | generate
  | execute
  | summarizeStage
deriving DecidableEq

/-- Which stage of `query_analyzer` fails first on a given run, if any
(mirrors the control flow of lines 25–150). -/
def failedStage (q : PyStr) (env : Env) : Option Stage :=
  match env.connectDb with
  | .error _ => some .connect
  | .ok _ =>
    match env.initLLM with
    | .error _ => some .initLLM
    | .ok _ =>
      match env.generateSQL q with
      | .error _ => some .generate
      | .ok raw =>
        match env.execSQL (clean_sql raw) with
        | .error _ => some .execute
        | .ok df =>
          match env.summarize (summaryPrompt q (env.renderTable df)) with
          | .error _ => some .summarizeStage
          | .ok _ => none

/-- A one-cell result table used in concrete runs. -/
def okRow : Table := [[['r']]]

/-- A run whose database connection fails. -/
def envConnFail : Env where
  connectDb := .error ("db down".toList)
  initLLM := .ok ()
  generateSQL := fun _ => .ok ("SELECT 1".toList)
  execSQL := fun _ => .ok okRow
  renderTable := fun _ => "tbl".toList
  summarize := fun _ => .ok ("fine".toList)

/-- A run whose LLM initialization fails. -/
def envInitFail : Env where
  connectDb := .ok ()
  initLLM := .error ("bad key".toList)
  generateSQL := fun _ => .ok ("SELECT 1".toList)
  execSQL := fun _ => .ok okRow
  renderTable := fun _ => "tbl".toList
  summarize := fun _ => .ok ("fine".toList)

/-- A run whose SQL generation fails. -/
def envGenFail : Env where
  connectDb := .ok ()
  initLLM := .ok ()
  generateSQL := fun _ => .error ("api".toList)
  execSQL := fun _ => .ok okRow
  renderTable := fun _ => "tbl".toList
  summarize := fun _ => .ok ("fine".toList)

/-- A run whose SQL execution fails. -/
def envExecFail : Env where
  connectDb := .ok ()
  initLLM := .ok ()
  generateSQL := fun _ => .ok ("SELECT 1".toList)
  execSQL := fun _ => .error ("no such table".toList)
  renderTable := fun _ => "tbl".toList
  summarize := fun _ => .ok ("fine".toList)

/-- A run whose summarization call fails after a successful execution. -/
def envSummFail : Env where
  connectDb := .ok ()
  initLLM := .ok ()
  generateSQL := fun _ => .ok ("SELECT 1".toList)
  execSQL := fun _ => .ok okRow
  renderTable := fun _ => "tbl".toList
  summarize := fun _ => .error ("boom".toList)

/-! ### Helper lemmas about the string operations -/

theorem scrub_eq_self (a b d : Char) : ∀ l : PyStr, ¬([a, b, d] <:+: l) → scrub a b d l = l := by
  intro l
  induction l with
  | nil => intro _; rfl
  | cons x t ih =>
    intro h
    match t with
    | [] => rfl
    | [y] => rfl
    | y :: z :: rest =>
      rw [scrub]
      have hne : ¬(x = a ∧ y = b ∧ z = d) := by
        rintro ⟨rfl, rfl, rfl⟩
        exact h ⟨[], rest, by simp⟩
      rw [if_neg hne]
      have ht : ¬([a, b, d] <:+: y :: z :: rest) := by
        rintro ⟨u, v, huv⟩
        exact h ⟨x :: u, v, by simp [← huv]⟩
      rw [ih ht]

theorem selectMatchAt_length (c : PyStr) (i : Nat) (h : selectMatchAt c i) :
    i + 8 ≤ c.length := by
  have h2 := h.2
  unfold wsThenChar at h2
  cases hd : c.drop (i + 6) with
  | nil => rw [hd] at h2; simp at h2
  | cons w tl =>
    cases tl with
    | nil => rw [hd] at h2; simp at h2
    | cons x rest =>
      have hlen : (c.drop (i + 6)).length = rest.length + 2 := by rw [hd]; simp
      rw [List.length_drop] at hlen
      omega

theorem findSelGo_eq_some (c : PyStr) :
    ∀ fuel i j : Nat, findSelGo c i fuel = some j →
      selectMatchAt c j ∧ i ≤ j ∧ ∀ k, i ≤ k → k < j → ¬selectMatchAt c k := by
  intro fuel
  induction fuel with
  | zero => intro i j h; simp [findSelGo] at h
  | succ n ih =>
    intro i j h
    rw [findSelGo] at h
    by_cases hm : selectMatchAt c i
    · rw [if_pos hm] at h
      injection h with h
      subst h
      exact ⟨hm, Nat.le_refl _, fun k hik hkj => absurd hik (Nat.not_le.mpr hkj)⟩
    · rw [if_neg hm] at h
      obtain ⟨hj, hij, hmin⟩ := ih (i + 1) j h
      refine ⟨hj, Nat.le_trans (Nat.le_succ i) hij, fun k hik hkj => ?_⟩
      rcases Nat.eq_or_lt_of_le hik with heq | hlt
      · rw [← heq]; exact hm
      · exact hmin k hlt hkj

theorem findSelGo_eq_none (c : PyStr) :
    ∀ fuel i : Nat, findSelGo c i fuel = none →
      ∀ k, i ≤ k → k < i + fuel → ¬selectMatchAt c k := by
  intro fuel
  induction fuel with
  | zero => intro i _ k _ hk; omega
  | succ n ih =>
    intro i h k hik hk
    rw [findSelGo] at h
    by_cases hm : selectMatchAt c i
    · rw [if_pos hm] at h; exact absurd h (by simp)
    · rw [if_neg hm] at h
      rcases Nat.eq_or_lt_of_le hik with heq | hlt
      · rw [← heq]; exact hm
      · exact ih (i + 1) h k hlt (by omega)

theorem findSel_eq_none (c : PyStr) (h : findSel c = none) :
    ∀ k, ¬selectMatchAt c k := by
  intro k hm
  by_cases hk : k < c.length
  · exact findSelGo_eq_none c c.length 0 h k (Nat.zero_le k) (by omega) hm
  · have := selectMatchAt_length c k hm
    omega

theorem findSel_eq_some (c : PyStr) (j : Nat) (h : findSel c = some j) :
    selectMatchAt c j ∧ ∀ k, k < j → ¬selectMatchAt c k := by
  obtain ⟨hj, _, hmin⟩ := findSelGo_eq_some c c.length 0 j h
  exact ⟨hj, fun k hk => hmin k (Nat.zero_le k) hk⟩

theorem infix_of_prefix_drop {α : Type} (t l : List α) (j : Nat)
    (h : t <+: l.drop j) : t <:+: l := by
  obtain ⟨u, hu⟩ := h
  exact ⟨l.take j, u, by rw [List.append_assoc, hu, List.take_append_drop]⟩

theorem lstrip_eq_self_of_head (x : Char) (v : PyStr) (hx : isSpaceChar x = false) :
    lstrip (x :: v) = x :: v := by
  unfold lstrip
  rw [List.dropWhile_cons, hx]
  simp

theorem pyStrip_idem (s : PyStr) : pyStrip (pyStrip s) = pyStrip s := by
  unfold pyStrip
  have hl : lstrip (rstrip (lstrip s)) = rstrip (lstrip s) := by
    have hpre : rstrip (lstrip s) <+: lstrip s :=
      List.rdropWhile_prefix isSpaceChar (lstrip s)
    cases hr : rstrip (lstrip s) with
    | nil => rfl
    | cons x v =>
      rw [hr] at hpre
      obtain ⟨w, hw⟩ := hpre
      have hne : lstrip s ≠ [] := by
        intro hnil
        rw [hnil] at hw
        simp at hw
      have hhead : isSpaceChar ((lstrip s).head hne) = false :=
        List.head_dropWhile_not isSpaceChar s hne
      have hx : (lstrip s).head hne = x := by
        have : lstrip s = x :: (v ++ w) := by rw [← hw]; simp
        simp [this]
      rw [hx] at hhead
      exact lstrip_eq_self_of_head x v hhead
  rw [hl]
  exact List.rdropWhile_idempotent isSpaceChar (lstrip s)

theorem clean_sql_of_findSel_some (s : PyStr) (i : Nat)
    (h : findSel (preClean s) = some i) :
    clean_sql s = pyStrip ((preClean s).drop i) := by
  simp only [clean_sql, h]

theorem clean_sql_of_findSel_none (s : PyStr)
    (h : findSel (preClean s) = none) :
    clean_sql s = preClean s := by
  simp only [clean_sql, h]

theorem pyStrip_preClean (s : PyStr) : pyStrip (preClean s) = preClean s := by
  unfold preClean step2
  exact pyStrip_idem _

theorem stripped_clean (s : PyStr) : pyStrip (clean_sql s) = clean_sql s := by
  cases hf : findSel (preClean s) with
  | some i => rw [clean_sql_of_findSel_some s i hf]; exact pyStrip_idem _
  | none => rw [clean_sql_of_findSel_none s hf]; exact pyStrip_preClean s

/-! ### Claims about the pipeline orchestrator -/

/-- C3: `query_analyzer` never raises to its caller: every failure of the five
stages (database connection, model initialization, SQL generation, SQL
execution, summarization) is caught where it occurs and converted into the
corresponding human-readable string returned in the first slot of the
3-tuple.  (`query_analyzer` is a total Lean function of the stage outcomes,
and each stage-failure hypothesis yields the formatted message.) -/
theorem query_analyzer_catches_all_stage_failures (q : PyStr) (env : Env) :
    (∀ e, env.connectDb = .error e →
      query_analyzer q env = (errConnect e, none, none)) ∧
    (∀ e, env.connectDb = .ok () → env.initLLM = .error e →
      query_analyzer q env = (errInitLLM e, none, none)) ∧
    (∀ e, env.connectDb = .ok () → env.initLLM = .ok () →
      env.generateSQL q = .error e →
      query_analyzer q env = (errGenerate e, none, none)) ∧
    (∀ raw e, env.connectDb = .ok () → env.initLLM = .ok () →
      env.generateSQL q = .ok raw →
      env.execSQL (clean_sql raw) = .error e →
      query_analyzer q env =
        (errExecute e (clean_sql raw), some (clean_sql raw), none)) ∧
    (∀ raw df e, env.connectDb = .ok () → env.initLLM = .ok () →
      env.generateSQL q = .ok raw →
      env.execSQL (clean_sql raw) = .ok df →
      env.summarize (summaryPrompt q (env.renderTable df)) = .error e →
      query_analyzer q env = (errSummarize e, some (clean_sql raw), some df)) := by
  refine ⟨?_, ?_, ?_, ?_, ?_⟩ <;> intros <;> simp [query_analyzer, *]

/-- Witness for C3: each of the five stage failures, at a concrete run. -/
theorem query_analyzer_catches_all_stage_failures_witness :
    query_analyzer [] envConnFail = (errConnect ("db down".toList), none, none) ∧
    query_analyzer [] envInitFail = (errInitLLM ("bad key".toList), none, none) ∧
    query_analyzer [] envGenFail = (errGenerate ("api".toList), none, none) ∧
    query_analyzer [] envExecFail =
      (errExecute ("no such table".toList) (clean_sql ("SELECT 1".toList)),
       some (clean_sql ("SELECT 1".toList)), none) ∧
    query_analyzer [] envSummFail =
      (errSummarize ("boom".toList), some (clean_sql ("SELECT 1".toList)), some okRow) :=
  ⟨(query_analyzer_catches_all_stage_failures [] envConnFail).1 _ rfl,
   (query_analyzer_catches_all_stage_failures [] envInitFail).2.1 _ rfl rfl,
   (query_analyzer_catches_all_stage_failures [] envGenFail).2.2.1 _ rfl rfl rfl,
   (query_analyzer_catches_all_stage_failures [] envExecFail).2.2.2.1 _ _ rfl rfl rfl rfl,
   (query_analyzer_catches_all_stage_failures [] envSummFail).2.2.2.2 _ _ _ rfl rfl rfl rfl rfl⟩

/-- C6: if SQL execution fails after successful generation, the result is a
3-tuple with a non-empty error string, the attempted sanitized SQL in the
second slot, and `none` in the third. -/
theorem exec_failure_returns_error_sql_null (q : PyStr) (env : Env) (raw e : PyStr)
    (hc : env.connectDb = .ok ()) (hi : env.initLLM = .ok ())
    (hg : env.generateSQL q = .ok raw)
    (hx : env.execSQL (clean_sql raw) = .error e) :
    query_analyzer q env =
      (errExecute e (clean_sql raw), some (clean_sql raw), none) ∧
    errExecute e (clean_sql raw) ≠ [] := by
  constructor
  · simp [query_analyzer, hc, hi, hg, hx]
  · simp [errExecute]

/-- Witness for C6 at a concrete run. -/
theorem exec_failure_returns_error_sql_null_witness :
    query_analyzer [] envExecFail =
      (errExecute ("no such table".toList) (clean_sql ("SELECT 1".toList)),
       some (clean_sql ("SELECT 1".toList)), none) ∧
    errExecute ("no such table".toList) (clean_sql ("SELECT 1".toList)) ≠ [] :=
  exec_failure_returns_error_sql_null [] envExecFail ("SELECT 1".toList)
    ("no such table".toList) rfl rfl rfl rfl

/-- C7: if the summarization call fails after successful SQL execution, the
result preserves both the sanitized SQL and the already-computed result
table alongside the error string. -/
theorem summarize_failure_returns_error_sql_table (q : PyStr) (env : Env)
    (raw e : PyStr) (df : Table)
    (hc : env.connectDb = .ok ()) (hi : env.initLLM = .ok ())
    (hg : env.generateSQL q = .ok raw)
    (hx : env.execSQL (clean_sql raw) = .ok df)
    (hs : env.summarize (summaryPrompt q (env.renderTable df)) = .error e) :
    query_analyzer q env = (errSummarize e, some (clean_sql raw), some df) := by
  simp [query_analyzer, hc, hi, hg, hx, hs]

/-- Witness for C7 at a concrete run. -/
theorem summarize_failure_returns_error_sql_table_witness :
    query_analyzer [] envSummFail =
      (errSummarize ("boom".toList), some (clean_sql ("SELECT 1".toList)), some okRow) :=
  summarize_failure_returns_error_sql_table [] envSummFail ("SELECT 1".toList)
    ("boom".toList) okRow rfl rfl rfl rfl rfl

/-- Counterexample for C2: a run whose summarization stage (not the SQL
execution stage) fails also returns an error string in the first slot and a
non-null second slot, so SQL execution is not the only failure path that
preserves the SQL. -/
theorem summarization_failure_also_preserves_sql :
    failedStage [] envSummFail = some Stage.summarizeStage ∧
    (query_analyzer [] envSummFail).1 = errSummarize ("boom".toList) ∧
    (query_analyzer [] envSummFail).2.1 = some (clean_sql ("SELECT 1".toList)) ∧
    Stage.summarizeStage ≠ Stage.execute := by
  refine ⟨rfl, rfl, rfl, by decide⟩

/-- C2 as amended: the SQL-execution branch is the only failure path whose
result carries a non-null second slot together with a null third slot. -/
theorem exec_only_failure_with_sql_and_no_table (q : PyStr) (env : Env)
    (st : Stage) (hf : failedStage q env = some st)
    (hsql : (query_analyzer q env).2.1 ≠ none)
    (htab : (query_analyzer q env).2.2 = none) :
    st = Stage.execute := by
  cases hc : env.connectDb with
  | error e => simp [failedStage, query_analyzer, hc] at hf hsql
  | ok u =>
    cases hi : env.initLLM with
    | error e => simp [failedStage, query_analyzer, hc, hi] at hf hsql
    | ok v =>
      cases hg : env.generateSQL q with
      | error e => simp [failedStage, query_analyzer, hc, hi, hg] at hf hsql
      | ok raw =>
        cases hx : env.execSQL (clean_sql raw) with
        | error e =>
          simp [failedStage, query_analyzer, hc, hi, hg, hx] at hf
          exact hf.symm
        | ok df =>
          cases hs : env.summarize (summaryPrompt q (env.renderTable df)) with
          | error e =>
            simp [failedStage, query_analyzer, hc, hi, hg, hx, hs] at htab
          | ok ans =>
            simp [failedStage, query_analyzer, hc, hi, hg, hx, hs] at hf

/-- Witness for the amended C2 at a concrete run. -/
theorem exec_only_failure_with_sql_and_no_table_witness :
    failedStage [] envExecFail = some Stage.execute ∧
    (query_analyzer [] envExecFail).2.1 ≠ none ∧
    (query_analyzer [] envExecFail).2.2 = none ∧
    Stage.execute = Stage.execute :=
  ⟨rfl, by decide, rfl,
   exec_only_failure_with_sql_and_no_table [] envExecFail Stage.execute rfl
     (by decide) rfl⟩

/-! ### Claims about the SQL sanitizer -/

/-- C8: the two end-to-end sanitizer examples of the specification. -/
theorem clean_sql_end_to_end_examples :
    clean_sql ("```sql\nSELECT AVG(PRET_SCORE), AVG(POSTT_SCORE) FROM Sheet2;\n```".toList) =
      "SELECT AVG(PRET_SCORE), AVG(POSTT_SCORE) FROM Sheet2;".toList ∧
    clean_sql ("SQLQuery: SELECT * FROM Sheet1 WHERE Question_no = 5".toList) =
      "SELECT * FROM Sheet1 WHERE Question_no = 5".toList := by
  constructor
  · decide
  · decide

/-- C9: the removal of `sql` is case-sensitive and substring-based and is
applied to the whole text before the `SELECT` search: a string without a
lowercase `sql` occurrence is unchanged, the occurrence inside
`sqlite_master` is deleted even though it sits inside the statement, and
upper-case `SQL` is left intact. -/
theorem stripSqlWord_case_sensitive_substring :
    (∀ l : PyStr, ¬(['s', 'q', 'l'] <:+: l) → stripSqlWord l = l) ∧
    clean_sql ("SELECT * FROM sqlite_master".toList) =
      "SELECT * FROM ite_master".toList ∧
    clean_sql ("SELECT * FROM SQLITE_MASTER".toList) =
      "SELECT * FROM SQLITE_MASTER".toList := by
  refine ⟨fun l h => scrub_eq_self _ _ _ l h, by decide, by decide⟩

/-- Witness for C9: the no-occurrence conjunct applied at a concrete string. -/
theorem stripSqlWord_case_sensitive_substring_witness :
    ¬(['s', 'q', 'l'] <:+: "SELECT ok SQL".toList) ∧
    stripSqlWord ("SELECT ok SQL".toList) = "SELECT ok SQL".toList :=
  ⟨by decide, stripSqlWord_case_sensitive_substring.1 ("SELECT ok SQL".toList) (by decide)⟩

/-- Counterexample for C1: `"foo SELECT(1)"` contains a case-insensitive
`SELECT` token, yet `clean_sql` returns the whole cleaned text unchanged —
the text before the token is not removed, because the regex `SELECT\s.+`
also requires a whitespace character and a further character. -/
theorem clean_sql_select_token_not_extracted :
    (selectTok <:+: (preClean ("foo SELECT(1)".toList)).map lowerChar) ∧
    clean_sql ("foo SELECT(1)".toList) = "foo SELECT(1)".toList ∧
    ¬(selectTok <+: (clean_sql ("foo SELECT(1)".toList)).map lowerChar) := by
  refine ⟨by decide, by decide, by decide⟩

/-- C1 as amended: whenever the regex `SELECT\s.+` (case-insensitive,
`DOTALL`) matches somewhere in the step-1/step-2 cleaned text, `clean_sql`
returns the suffix of the cleaned text starting at the leftmost such match,
stripped of surrounding whitespace; that suffix begins with the
(case-insensitive) `SELECT` token, everything before it removed. -/
theorem clean_sql_extracts_from_first_select_match (s : PyStr) (i : Nat)
    (h : selectMatchAt (preClean s) i) :
    ∃ j, j ≤ i ∧ selectMatchAt (preClean s) j ∧
      (∀ k, k < j → ¬selectMatchAt (preClean s) k) ∧
      clean_sql s = pyStrip ((preClean s).drop j) ∧
      selectTok <+: ((preClean s).drop j).map lowerChar := by
  cases hf : findSel (preClean s) with
  | none => exact absurd h (findSel_eq_none _ hf i)
  | some j =>
    obtain ⟨hj, hmin⟩ := findSel_eq_some _ j hf
    refine ⟨j, ?_, hj, hmin, clean_sql_of_findSel_some s j hf, hj.1⟩
    by_contra hlt
    exact hmin i (by omega) h

/-- Witness for the amended C1: a match at position 2 of the cleaned text. -/
theorem clean_sql_extracts_from_first_select_match_witness :
    selectMatchAt (preClean ("x SELECT 1".toList)) 2 ∧
    (∃ j, j ≤ 2 ∧ selectMatchAt (preClean ("x SELECT 1".toList)) j ∧
      (∀ k, k < j → ¬selectMatchAt (preClean ("x SELECT 1".toList)) k) ∧
      clean_sql ("x SELECT 1".toList) =
        pyStrip ((preClean ("x SELECT 1".toList)).drop j) ∧
      selectTok <+: ((preClean ("x SELECT 1".toList)).drop j).map lowerChar) :=
  ⟨by decide, clean_sql_extracts_from_first_select_match ("x SELECT 1".toList) 2 (by decide)⟩

/-- Counterexample for C4: the input `"x SEsqlLECT 1"` contains no
case-insensitive `SELECT` token, yet `clean_sql` does not return the
step-1/step-2 cleaned text: deleting `sql` creates a `SELECT` token that the
search then finds. -/
theorem clean_sql_no_select_in_input_still_extracts :
    ¬(selectTok <:+: ("x SEsqlLECT 1".toList).map lowerChar) ∧
    preClean ("x SEsqlLECT 1".toList) = "x SELECT 1".toList ∧
    clean_sql ("x SEsqlLECT 1".toList) = "SELECT 1".toList ∧
    clean_sql ("x SEsqlLECT 1".toList) ≠ preClean ("x SEsqlLECT 1".toList) := by
  refine ⟨by decide, by decide, by decide, by decide⟩

/-- C4 as amended: for every input whose step-1/step-2 cleaned text contains
no case-insensitive `SELECT` occurrence, `clean_sql` returns exactly the
cleaned text (label removed, backtick fences and `sql` removed, trimmed). -/
theorem clean_sql_no_select_returns_precleaned (s : PyStr)
    (h : ¬(selectTok <:+: (preClean s).map lowerChar)) :
    clean_sql s = preClean s := by
  cases hf : findSel (preClean s) with
  | some j =>
    exfalso
    obtain ⟨hj, _⟩ := findSel_eq_some _ j hf
    have hp : selectTok <+: ((preClean s).map lowerChar).drop j := by
      rw [← List.map_drop]
      exact hj.1
    exact h (infix_of_prefix_drop _ _ j hp)
  | none => exact clean_sql_of_findSel_none s hf

/-- Witness for the amended C4. -/
theorem clean_sql_no_select_returns_precleaned_witness :
    ¬(selectTok <:+: (preClean ("SQLQuery: UPDATE t SET a = 1".toList)).map lowerChar) ∧
    clean_sql ("SQLQuery: UPDATE t SET a = 1".toList) =
      preClean ("SQLQuery: UPDATE t SET a = 1".toList) :=
  ⟨by decide, clean_sql_no_select_returns_precleaned ("SQLQuery: UPDATE t SET a = 1".toList) (by decide)⟩

/-- C10: the `SELECT` search only matches a token immediately followed by a
whitespace character and at least one further character; if every
case-insensitive `SELECT` occurrence in the cleaned text fails that test,
`clean_sql` takes the no-match branch and returns the step-1/step-2 cleaned
text. -/
theorem clean_sql_select_needs_ws_and_char (s : PyStr)
    (h : ∀ i, i < (preClean s).length →
      selectTok <+: ((preClean s).drop i).map lowerChar →
      wsThenChar (preClean s) i = false) :
    clean_sql s = preClean s := by
  cases hf : findSel (preClean s) with
  | some j =>
    exfalso
    obtain ⟨⟨hp, hw⟩, _⟩ := findSel_eq_some _ j hf
    have hlen := selectMatchAt_length (preClean s) j ⟨hp, hw⟩
    have := h j (by omega) hp
    rw [hw] at this
    exact absurd this (by simp)
  | none => exact clean_sql_of_findSel_none s hf

/-- Witness for C10: `"SELECT(1)"` (token followed by a non-whitespace
character) and `"SELECT"` (string ends at the token) both take the
no-match branch. -/
theorem clean_sql_select_needs_ws_and_char_witness :
    clean_sql ("SELECT(1)".toList) = preClean ("SELECT(1)".toList) ∧
    clean_sql ("SELECT".toList) = preClean ("SELECT".toList) :=
  ⟨clean_sql_select_needs_ws_and_char ("SELECT(1)".toList) (by decide),
   clean_sql_select_needs_ws_and_char ("SELECT".toList) (by decide)⟩

/-- Counterexample for C5: `clean_sql` is not idempotent on its own output.
On `"SELECT ssqlql"` the `sql`-removal of step 2 joins the surrounding
characters into a brand-new `"sql"`, so the first output is
`"SELECT sql"`; a second application deletes that `sql` and then fails the
`SELECT\s.+` search, returning `"SELECT"`. -/
theorem clean_sql_not_idempotent :
    clean_sql ("SELECT ssqlql".toList) = "SELECT sql".toList ∧
    clean_sql (clean_sql ("SELECT ssqlql".toList)) = "SELECT".toList ∧
    clean_sql (clean_sql ("SELECT ssqlql".toList)) ≠ clean_sql ("SELECT ssqlql".toList) := by
  refine ⟨by decide, by decide, by decide⟩

/-! ### Toward conditional idempotence of the sanitizer -/

theorem removeLabel_eq_self (t : PyStr) (hQ : ¬(qLabel <+: t.map lowerChar))
    (hS : ¬(sLabel <+: t.map lowerChar)) : removeLabel t = t := by
  unfold removeLabel
  rw [if_neg hQ, if_neg hS]

theorem preClean_eq_self (t : PyStr) (hstr : pyStrip t = t)
    (hT : ¬([tick, tick, tick] <:+: t)) (hSq : ¬(['s', 'q', 'l'] <:+: t))
    (hQ : ¬(qLabel <+: t.map lowerChar)) (hS : ¬(sLabel <+: t.map lowerChar)) :
    preClean t = t := by
  unfold preClean step1 step2 stripFences stripSqlWord
  rw [removeLabel_eq_self t hQ hS, hstr, scrub_eq_self _ _ _ t hT,
    scrub_eq_self _ _ _ t hSq, hstr]

theorem lowerChar_of_space (ch : Char) (h : isSpaceChar ch = true) :
    lowerChar ch = ch := by
  simp only [isSpaceChar, Bool.or_eq_true, beq_iff_eq] at h
  rcases h with ((((h | h) | h) | h) | h) | h <;> subst h <;> decide

theorem nonspace_of_lower_mem (ch : Char) (h : lowerChar ch ∈ selectTok) :
    isSpaceChar ch = false := by
  cases hsp : isSpaceChar ch with
  | false => rfl
  | true =>
    exfalso
    rw [lowerChar_of_space ch hsp] at h
    have hns : ∀ y ∈ selectTok, isSpaceChar y = false := by decide
    have := hns ch h
    rw [hsp] at this
    exact Bool.noConfusion this

theorem forall_nonspace_of_map_lower (m : PyStr) (hm : m.map lowerChar = selectTok) :
    ∀ ch ∈ m, isSpaceChar ch = false := by
  intro ch hch
  apply nonspace_of_lower_mem
  rw [← hm]
  exact List.mem_map_of_mem lowerChar hch

theorem selectMatchAt_decomp (c : PyStr) (i : Nat) (h : selectMatchAt c i) :
    ∃ (m : PyStr) (w x : Char) (rest : PyStr),
      c.drop i = m ++ w :: x :: rest ∧ m.map lowerChar = selectTok ∧
      m.length = 6 ∧ isSpaceChar w = true := by
  obtain ⟨hp, hw⟩ := h
  have hlen := selectMatchAt_length c i ⟨hp, hw⟩
  obtain ⟨u, hu⟩ := hp
  unfold wsThenChar at hw
  cases hd : c.drop (i + 6) with
  | nil => rw [hd] at hw; simp at hw
  | cons w tl =>
    cases tl with
    | nil => rw [hd] at hw; simp at hw
    | cons x rest =>
      rw [hd] at hw
      have hw' : isSpaceChar w = true := hw
      refine ⟨(c.drop i).take 6, w, x, rest, ?_, ?_, ?_, hw'⟩
      · have h1 : (c.drop i).drop 6 = c.drop (i + 6) := by
          rw [List.drop_drop]
        conv_lhs => rw [← List.take_append_drop 6 (c.drop i)]
        rw [h1, hd]
      · rw [List.map_take, ← hu]
        rfl
      · rw [List.length_take, List.length_drop]
        omega

theorem rstrip_eq_self_of_nonspace (m : PyStr)
    (hm : ∀ ch ∈ m, isSpaceChar ch = false) : rstrip m = m := by
  unfold rstrip
  rw [List.rdropWhile_eq_self_iff]
  intro hl
  have := hm (m.getLast hl) (List.getLast_mem hl)
  simp [this]

theorem rstrip_append_nonspace (m r : PyStr)
    (hm : ∀ ch ∈ m, isSpaceChar ch = false) :
    rstrip (m ++ r) = if rstrip r = [] then m else m ++ rstrip r := by
  by_cases hz : rstrip r = []
  · rw [if_pos hz]
    have hdw : List.dropWhile isSpaceChar r.reverse = [] := by
      have h0 := hz
      unfold rstrip List.rdropWhile at h0
      rwa [List.reverse_eq_nil_iff] at h0
    have h2 : rstrip m = m := rstrip_eq_self_of_nonspace m hm
    unfold rstrip List.rdropWhile at h2 ⊢
    rw [List.reverse_append, List.dropWhile_append,
      if_pos (by rw [List.isEmpty_iff]; exact hdw)]
    exact h2
  · rw [if_neg hz]
    have hdw : List.dropWhile isSpaceChar r.reverse ≠ [] := by
      intro h0
      apply hz
      unfold rstrip List.rdropWhile
      rw [h0]
      rfl
    unfold rstrip List.rdropWhile
    rw [List.reverse_append, List.dropWhile_append,
      if_neg (by rw [List.isEmpty_iff]; exact hdw)]
    rw [List.reverse_append, List.reverse_reverse]

theorem rstrip_cons_space_shape (w x : Char) (r : PyStr)
    (hw : isSpaceChar w = true) :
    rstrip (w :: x :: r) = [] ∨
      ∃ (x2 : Char) (r2 : PyStr), rstrip (w :: x :: r) = w :: x2 :: r2 := by
  cases hr : rstrip (w :: x :: r) with
  | nil => exact Or.inl rfl
  | cons y v =>
    right
    have hpre : rstrip (w :: x :: r) <+: w :: x :: r :=
      List.rdropWhile_prefix isSpaceChar (w :: x :: r)
    rw [hr] at hpre
    obtain ⟨u, hu⟩ := hpre
    rw [List.cons_append] at hu
    injection hu with hy hvu
    cases v with
    | nil =>
      exfalso
      have hne' : List.rdropWhile isSpaceChar (w :: x :: r) ≠ [] := by
        have hne : rstrip (w :: x :: r) ≠ [] := by rw [hr]; simp
        exact hne
      have hlast := List.rdropWhile_last_not isSpaceChar (w :: x :: r) hne'
      have hval : (List.rdropWhile isSpaceChar (w :: x :: r)).getLast hne' = y := by
        have heq : List.rdropWhile isSpaceChar (w :: x :: r) = [y] := hr
        simp [heq]
      rw [hval, hy] at hlast
      exact hlast hw
    | cons x2 r2 => exact ⟨x2, r2, by rw [hy]⟩

/-- C5 as amended: the sanitizer is idempotent on every output that carries
no residual marker: if `clean_sql s` contains no triple-backtick and no
lowercase `sql` occurrence and does not begin with a case-insensitive
`Question:` or `SQLQuery:` label, then applying `clean_sql` to it returns it
unchanged.  (The counterexample shows the hypotheses are necessary: deletion
of `sql` or ``` `` ``` can manufacture new markers in the output.) -/
theorem clean_sql_idempotent_on_marker_free_output (s : PyStr)
    (hT : ¬([tick, tick, tick] <:+: clean_sql s))
    (hSq : ¬(['s', 'q', 'l'] <:+: clean_sql s))
    (hQ : ¬(qLabel <+: (clean_sql s).map lowerChar))
    (hS : ¬(sLabel <+: (clean_sql s).map lowerChar)) :
    clean_sql (clean_sql s) = clean_sql s := by
  have hstr : pyStrip (clean_sql s) = clean_sql s := stripped_clean s
  have hpre : preClean (clean_sql s) = clean_sql s :=
    preClean_eq_self _ hstr hT hSq hQ hS
  cases hf : findSel (preClean s) with
  | none =>
    have ht : clean_sql s = preClean s := clean_sql_of_findSel_none s hf
    have hnone : findSel (preClean (clean_sql s)) = none := by
      rw [hpre, ht]; exact hf
    rw [clean_sql_of_findSel_none _ hnone, hpre]
  | some j =>
    obtain ⟨hj, _⟩ := findSel_eq_some _ j hf
    have ht : clean_sql s = pyStrip ((preClean s).drop j) :=
      clean_sql_of_findSel_some s j hf
    obtain ⟨m, w, x, rest, hD, hmlow, hm6, hwsp⟩ := selectMatchAt_decomp _ j hj
    have hmns : ∀ ch ∈ m, isSpaceChar ch = false :=
      forall_nonspace_of_map_lower m hmlow
    have hm_ne : m ≠ [] := by
      intro h0; rw [h0] at hm6; simp at hm6
    have hlst : lstrip ((preClean s).drop j) = (preClean s).drop j := by
      rw [hD]
      cases m with
      | nil => exact absurd rfl hm_ne
      | cons mh mt =>
        have hns : isSpaceChar mh = false := hmns mh (by simp)
        rw [List.cons_append]
        exact lstrip_eq_self_of_head _ _ hns
    have ht2 : clean_sql s = rstrip ((preClean s).drop j) := by
      rw [ht]; unfold pyStrip; rw [hlst]
    rw [hD, rstrip_append_nonspace m (w :: x :: rest) hmns] at ht2
    by_cases hz : rstrip (w :: x :: rest) = []
    · rw [if_pos hz] at ht2
      have hnone : findSel (preClean (clean_sql s)) = none := by
        rw [hpre]
        cases hffm : findSel (clean_sql s) with
        | none => rfl
        | some k =>
          exfalso
          obtain ⟨hk, _⟩ := findSel_eq_some _ k hffm
          have hkl := selectMatchAt_length _ k hk
          rw [ht2] at hkl
          rw [hm6] at hkl
          omega
      rw [clean_sql_of_findSel_none _ hnone, hpre]
    · rw [if_neg hz] at ht2
      rcases rstrip_cons_space_shape w x rest hwsp with h0 | ⟨x2, r2, hshape⟩
      · exact absurd h0 hz
      rw [hshape] at ht2
      have hmatch0 : selectMatchAt (clean_sql s) 0 := by
        constructor
        · rw [List.drop_zero, ht2, List.map_append, hmlow]
          exact ⟨(w :: x2 :: r2).map lowerChar, rfl⟩
        · show wsThenChar (clean_sql s) 0 = true
          unfold wsThenChar
          have hdr : (clean_sql s).drop (0 + 6) = w :: x2 :: r2 := by
            rw [ht2]
            have : (0 : Nat) + 6 = m.length := by omega
            rw [this]
            exact List.drop_left m _
          rw [hdr]
          exact hwsp
      have hfind : findSel (clean_sql s) = some 0 := by
        have hlen : 0 < (clean_sql s).length := by rw [ht2]; simp
        unfold findSel
        obtain ⟨n, hn⟩ : ∃ n, (clean_sql s).length = n + 1 :=
          ⟨(clean_sql s).length - 1, by omega⟩
        rw [hn, findSelGo, if_pos hmatch0]
      have hsome : findSel (preClean (clean_sql s)) = some 0 := by
        rw [hpre]; exact hfind
      rw [clean_sql_of_findSel_some _ 0 hsome, hpre, List.drop_zero]
      exact hstr

/-- Witness for the amended C5 at a concrete marker-free output. -/
theorem clean_sql_idempotent_on_marker_free_output_witness :
    ¬([tick, tick, tick] <:+: clean_sql ("SELECT a FROM t".toList)) ∧
    ¬(['s', 'q', 'l'] <:+: clean_sql ("SELECT a FROM t".toList)) ∧
    ¬(qLabel <+: (clean_sql ("SELECT a FROM t".toList)).map lowerChar) ∧
    ¬(sLabel <+: (clean_sql ("SELECT a FROM t".toList)).map lowerChar) ∧
    clean_sql (clean_sql ("SELECT a FROM t".toList)) =
      clean_sql ("SELECT a FROM t".toList) :=
  ⟨by decide, by decide, by decide, by decide,
   clean_sql_idempotent_on_marker_free_output ("SELECT a FROM t".toList)
     (by decide) (by decide) (by decide) (by decide)⟩

end MedBot
